import Mathlib

/-!
Verification of the language-tabs widget (`src/theme/language-tabs.js`).

The widget manages "tab groups" on a rendered documentation page: each group
is a DOM container holding tab buttons (class `language-tabs-trigger`) and
tab panels (class `language-tabs-panel`), each optionally carrying a
`data-language-tabs-value` attribute; the container optionally carries a
`data-language-tabs-group` attribute.  The embedding below models the DOM
state touched by the widget (active class, `aria-selected`, `tabindex`,
the header sync-toggle button, and the module-level sync flag) and each of
the widget's functions as a pure state transformer.
-/

namespace LanguageTabs

/-- A tab button (`.language-tabs-trigger`).  `value` models the
`data-language-tabs-value` attribute (`none` when absent), `isActive` the
presence of the `is-active` class, `ariaSelected` / `tabindex` the
corresponding attributes (`none` when never set). -/
structure TabButton where
  value : Option String
  isActive : Bool
  ariaSelected : Option String
  tabindex : Option String
deriving Repr, DecidableEq

/-- A tab panel (`.language-tabs-panel`): its `data-language-tabs-value`
attribute and the presence of the `is-active` class. -/
structure TabPanel where
  value : Option String
  isActive : Bool
deriving Repr, DecidableEq

/-- A tab group (`.language-tabs` container): its optional
`data-language-tabs-group` attribute and its buttons and panels in
document order (the widget's `getLanguageTabButtons` /
`getLanguageTabPanels` projections). -/
structure TabGroup where
  groupId : Option String
  buttons : List TabButton
  panels : List TabPanel
deriving Repr, DecidableEq

/-- The page's tab groups in document order
(`document.querySelectorAll(".language-tabs")`). -/
abbrev Page := List TabGroup

/-- The `tabButtons.some(...)` presence test inside
`activateTabValueInContainer`: strict equality of the dataset value with the
selected value (an absent attribute compares unequal to every string). -/
def hasSelectedTabValue (g : TabGroup) (selectedTabValue : String) : Bool :=
  g.buttons.any (fun b => b.value == some selectedTabValue)

/-- The per-button mutation of `activateTabValueInContainer`:
`classList.toggle("is-active", isActiveTab)`, `aria-selected`, `tabindex`. -/
def activateButton (selectedTabValue : String) (b : TabButton) : TabButton :=
  let isActiveTab := b.value == some selectedTabValue
  { b with
    isActive := isActiveTab
    ariaSelected := some (if isActiveTab then "true" else "false")
    tabindex := some (if isActiveTab then "0" else "-1") }

/-- The per-panel mutation of `activateTabValueInContainer`:
`classList.toggle("is-active", value === selected)`. -/
def activatePanel (selectedTabValue : String) (p : TabPanel) : TabPanel :=
  { p with isActive := p.value == some selectedTabValue }

/-- `activateTabValueInContainer(container, value)`: if no button carries the
value, return `false` without mutating; otherwise rewrite every button and
panel and return `true`.  The returned group is the container's state after
the call. -/
def activateTabValueInContainer (g : TabGroup) (selectedTabValue : String) :
    Bool × TabGroup :=
  if hasSelectedTabValue g selectedTabValue then
    (true,
      { g with
        buttons := g.buttons.map (activateButton selectedTabValue)
        panels := g.panels.map (activatePanel selectedTabValue) })
  else
    (false, g)

/-- `activateTabValueGlobally(value)`: run `activateTabValueInContainer` on
every group of the page. -/
def activateTabValueGlobally (selectedTabValue : String) (page : Page) : Page :=
  page.map (fun g => (activateTabValueInContainer g selectedTabValue).2)

/-- Result of an operation that can raise a DOM exception: the page state
when control returned (mutations made before the raise are kept) and
whether an exception escaped. -/
structure DomOutcome where
  page : Page
  threw : Bool
deriving Repr, DecidableEq

/-- Result of consuming the content of a CSS double-quoted string token:
the string closed at a quote with `rest` of the input following, or the
input ran out inside the string (the forgiving tokenizer closes it at
end-of-input), or an unescaped newline made it a bad-string (the selector
is then invalid). -/
inductive CssStringResult where
  | closed (value : List Char) (rest : List Char)
  | eofClosed (value : List Char)
  | badString
deriving Repr, DecidableEq

/-- Prepend one produced code point to the value of a string result. -/
def CssStringResult.prepend (c : Char) : CssStringResult → CssStringResult
  | .closed value rest => .closed (c :: value) rest
  | .eofClosed value => .eofClosed (c :: value)
  | .badString => .badString

/-- CSS whitespace, with the preprocessing of CR and FF to newline folded
in. -/
def cssIsWhitespace (c : Char) : Bool :=
  c == '\n' || c == '\t' || c == ' ' || c == '\r' || c == '\x0c'

/-- Hex digit test for CSS escape sequences. -/
def cssIsHexDigit (c : Char) : Bool :=
  (48 ≤ c.toNat && c.toNat ≤ 57) || (97 ≤ c.toNat && c.toNat ≤ 102) ||
    (65 ≤ c.toNat && c.toNat ≤ 70)

/-- Numeric value of a CSS hex digit. -/
def cssHexDigitValue (c : Char) : Nat :=
  if c.toNat ≤ 57 then c.toNat - 48
  else if c.toNat ≤ 70 then c.toNat - 55
  else c.toNat - 87

/-- The code point produced by a CSS hex escape: zero, surrogates and
values beyond U+10FFFF become U+FFFD. -/
def cssEscapedCodePoint (v : Nat) : Char :=
  if v = 0 ∨ (55296 ≤ v ∧ v ≤ 57343) ∨ 1114111 < v then '�'
  else Char.ofNat v

/-- Tokenizer state while consuming a CSS string: plain content, just after
a backslash, or inside a hex escape holding the value and digit count so
far. -/
inductive CssStrState where
  | normal
  | escape
  | hex (v : Nat) (digits : Nat)
deriving Repr, DecidableEq

/-- Consume the content of a CSS double-quoted string (CSS Syntax
"consume a string token", with input preprocessing folded in: CR, FF and
CRLF read as one newline, NUL as U+FFFD).  An unescaped quote closes the
string; an unescaped newline gives a bad-string; a backslash before a
newline is a line continuation, before up to six hex digits a code-point
escape whose one following whitespace is consumed, before end-of-input it
is dropped, and before any other character it escapes that character. -/
def cssConsumeString : CssStrState → List Char → CssStringResult
  | .normal, [] => .eofClosed []
  | .normal, c :: rest =>
    if c = '"' then .closed [] rest
    else if c = '\n' ∨ c = '\r' ∨ c = '\x0c' then .badString
    else if c = '\\' then cssConsumeString .escape rest
    else if c = '\x00' then (cssConsumeString .normal rest).prepend '�'
    else (cssConsumeString .normal rest).prepend c
  | .escape, [] => .eofClosed []
  | .escape, '\r' :: '\n' :: rest => cssConsumeString .normal rest
  | .escape, c :: rest =>
    if c = '\n' ∨ c = '\r' ∨ c = '\x0c' then cssConsumeString .normal rest
    else if cssIsHexDigit c then
      cssConsumeString (.hex (cssHexDigitValue c) 1) rest
    else if c = '\x00' then (cssConsumeString .normal rest).prepend '�'
    else (cssConsumeString .normal rest).prepend c
  | .hex v _, [] => .eofClosed [cssEscapedCodePoint v]
  | .hex v _, '\r' :: '\n' :: rest =>
    (cssConsumeString .normal rest).prepend (cssEscapedCodePoint v)
  | .hex v n, c :: rest =>
    if cssIsHexDigit c ∧ n < 6 then
      cssConsumeString (.hex (16 * v + cssHexDigitValue c) (n + 1)) rest
    else if cssIsWhitespace c then
      (cssConsumeString .normal rest).prepend (cssEscapedCodePoint v)
    else if c = '"' then .closed [cssEscapedCodePoint v] rest
    else if c = '\\' then
      (cssConsumeString .escape rest).prepend (cssEscapedCodePoint v)
    else if c = '\x00' then
      ((cssConsumeString .normal rest).prepend '�').prepend
        (cssEscapedCodePoint v)
    else ((cssConsumeString .normal rest).prepend c).prepend
      (cssEscapedCodePoint v)

/-- Semantics of `document.querySelectorAll` on the selector that
`activateTabValueForGroup` builds by raw interpolation,
`.language-tabs[data-language-tabs-group="${groupIdentifier}"]`: the
identifier's characters followed by the template's closing quote and
bracket are consumed as the content of a CSS double-quoted string.  When
the string's value is followed, after optional whitespace, by the
template's lone `]` — the case for every identifier free of unescaped
double quotes — the selector is the intended attribute test and matches
exactly the groups whose attribute equals the unescaped value (`some`
value); the same holds when the string and the open bracket are closed by
end-of-input (an identifier ending in a lone backslash escapes the
template's quote).  Otherwise the selector is invalid and
`querySelectorAll` raises a `SyntaxError` (`none`): a bad-string, or stray
tokens left between an early-closed string and the final bracket by an
unescaped double quote in the identifier.  (An identifier crafted so that
the leftover after its unescaped quote re-forms further valid selector
syntax is also modeled as raising; every identifier in this development
falls in the exact cases.) -/
def groupSelectorMatch (groupIdentifier : String) : Option String :=
  match cssConsumeString .normal (groupIdentifier.data ++ ['"', ']']) with
  | .closed value rest =>
    if rest.dropWhile cssIsWhitespace = [']'] then some (String.mk value)
    else none
  | .eofClosed value => some (String.mk value)
  | .badString => none

/-- `activateTabValueForGroup(groupIdentifier, value)`: query the page with
the interpolated selector and activate the value in every matched group.
Per `groupSelectorMatch`, the matched groups are those whose attribute
equals the CSS-unescape of the identifier; when the interpolated selector
is invalid the query raises and nothing is mutated. -/
def activateTabValueForGroup (groupIdentifier selectedTabValue : String)
    (page : Page) : DomOutcome :=
  match groupSelectorMatch groupIdentifier with
  | some matchedId =>
    { page := page.map (fun g =>
        if g.groupId == some matchedId then
          (activateTabValueInContainer g selectedTabValue).2
        else g)
      threw := false }
  | none => { page := page, threw := true }

/-- The first button with the `is-active` class, scanning groups and then
buttons in document order (the loop of `getFirstActiveTabValue`). -/
def firstActiveButton (page : Page) : Option TabButton :=
  page.findSome? (fun g => g.buttons.find? (fun b => b.isActive))

/-- `getFirstActiveTabValue()`: the value of the first active button in page
order, or `null` when no button is active or that button has no value
(`dataset.languageTabsValue ?? null`). -/
def getFirstActiveTabValue (page : Page) : Option String :=
  match firstActiveButton page with
  | some b => b.value
  | none => none

/-- The header sync-toggle button: the `is-active` class, the
`aria-pressed` attribute and the text content, the three fields written by
`updateLanguageTabsSyncToggleButtonState`. -/
structure ToggleButton where
  isActive : Bool
  ariaPressed : Option String
  textContent : String
deriving Repr, DecidableEq

/-- The whole state the widget reads and writes: the page's tab groups, the
module-level `isGlobalLanguageTabSyncEnabled` flag, the module-level
`languageTabsSyncToggleButtonElement` reference (`none` models `null`), and
whether the page has the `#mdbook-menu-bar` right/left button containers
the toggle can be inserted into. -/
structure ComponentState where
  page : Page
  syncEnabled : Bool
  toggleButton : Option ToggleButton
  hasRightButtons : Bool
  hasLeftButtons : Bool
deriving Repr, DecidableEq

/-- The fields `updateLanguageTabsSyncToggleButtonState` writes onto the
toggle button for a given sync flag. -/
def mkSyncToggleButton (enabled : Bool) : ToggleButton :=
  { isActive := enabled
    ariaPressed := some (if enabled then "true" else "false")
    textContent := if enabled then "Sync Tabs: On" else "Sync Tabs: Off" }

/-- `updateLanguageTabsSyncToggleButtonState()`: a no-op while the
module-level reference is still `null`, otherwise rewrite the three
observable fields from the sync flag. -/
def updateLanguageTabsSyncToggleButtonState (enabled : Bool)
    (toggleButton : Option ToggleButton) : Option ToggleButton :=
  toggleButton.map (fun _ => mkSyncToggleButton enabled)

/-- The click handler installed on the header toggle by
`createLanguageTabsSyncToggle`: flip the sync flag, refresh the button,
and when the flag was just turned on harmonize via
`activateTabValueGlobally` with the first active value — skipped when
`getFirstActiveTabValue()` yields `null` or the empty string
(`if (!firstActiveTabValue) return`). -/
def syncToggleClick (s : ComponentState) : ComponentState :=
  let enabled := !s.syncEnabled
  let s' := { s with
    syncEnabled := enabled
    toggleButton := updateLanguageTabsSyncToggleButtonState enabled s.toggleButton }
  if !enabled then s'
  else
    match getFirstActiveTabValue s.page with
    | none => s'
    | some v =>
      if v = "" then s'
      else { s' with page := activateTabValueGlobally v s'.page }

/-- `createLanguageTabsSyncToggle()`: do nothing with fewer than two groups
or when neither header button container exists; otherwise create the
toggle (the ensuing `updateLanguageTabsSyncToggleButtonState` call gives
it the fields of `mkSyncToggleButton`) and store it in the module-level
reference. -/
def createLanguageTabsSyncToggle (s : ComponentState) : ComponentState :=
  if s.page.length < 2 then s
  else if s.hasRightButtons || s.hasLeftButtons then
    { s with toggleButton := some (mkSyncToggleButton s.syncEnabled) }
  else s

/-- `handleTabClick(event)`: read the enclosing group via
`closest(".language-tabs")` (the `closest` argument, `none` when the button
has no enclosing group) and the button's value; abort when either the
group identifier or the value is missing or empty
(`if (!groupIdentifier || !selectedTabValue) return`); then activate
globally when sync is on, else for the group family. -/
def handleTabClick (syncEnabled : Bool) (closest : Option TabGroup)
    (tabButton : TabButton) (page : Page) : DomOutcome :=
  match closest.bind (fun g => g.groupId), tabButton.value with
  | some groupIdentifier, some selectedTabValue =>
    if groupIdentifier = "" || selectedTabValue = "" then
      { page := page, threw := false }
    else if syncEnabled then
      { page := activateTabValueGlobally selectedTabValue page, threw := false }
    else
      activateTabValueForGroup groupIdentifier selectedTabValue page
  | _, _ => { page := page, threw := false }

/-- Result of the keyboard handler: the index (within the group) of the
button that received focus, whether the browser default was suppressed,
and the click outcome. -/
structure KeyNavResult where
  focusTarget : Option Nat
  preventedDefault : Bool
  page : Page
  threw : Bool
deriving Repr, DecidableEq

/-- `handleTabKeyboardNavigation(event)` for the keydown on button `bi` of
group `gi` of the page: `ArrowRight` targets `(i + 1) % count`,
`ArrowLeft` targets `(i - 1 + count) % count` (written `(bi + count - 1) %
count` to stay in `Nat`; the two agree for `bi < count`), any other key is
ignored; on a resolved key the default action is suppressed, the target
button receives focus and is clicked.  An out-of-range `bi` models the
defensive `indexOf === -1` branch; an out-of-range `gi` models a button
with no enclosing group. -/
def handleTabKeyboardNavigation (syncEnabled : Bool) (page : Page)
    (gi bi : Nat) (key : String) : KeyNavResult :=
  match page[gi]? with
  | none => { focusTarget := none, preventedDefault := false, page := page, threw := false }
  | some g =>
    match g.buttons[bi]? with
    | none => { focusTarget := none, preventedDefault := false, page := page, threw := false }
    | some _ =>
      let count := g.buttons.length
      let nextIndex : Option Nat :=
        if key = "ArrowRight" then some ((bi + 1) % count)
        else if key = "ArrowLeft" then some ((bi + count - 1) % count)
        else none
      match nextIndex with
      | none => { focusTarget := none, preventedDefault := false, page := page, threw := false }
      | some ni =>
        match g.buttons[ni]? with
        | none => { focusTarget := none, preventedDefault := true, page := page, threw := false }
        | some target =>
          let d := handleTabClick syncEnabled (some g) target page
          { focusTarget := some ni, preventedDefault := true, page := d.page, threw := d.threw }

/-- `activateDefaultTab(container)` for group `gi` of the page: abort when
the group identifier is missing or empty or the group has no buttons; pick
the first already-active button, else the first button; abort when its
value is missing or empty (`if (defaultTabValue)`); otherwise activate the
value for the whole group family. -/
def activateDefaultTabAt (page : Page) (gi : Nat) : DomOutcome :=
  match page[gi]? with
  | none => { page := page, threw := false }
  | some g =>
    match g.groupId with
    | none => { page := page, threw := false }
    | some groupIdentifier =>
      if groupIdentifier = "" then { page := page, threw := false }
      else
        match g.buttons with
        | [] => { page := page, threw := false }
        | b0 :: _ =>
          let defaultTabButton := (g.buttons.find? (fun b => b.isActive)).getD b0
          match defaultTabButton.value with
          | none => { page := page, threw := false }
          | some defaultTabValue =>
            if defaultTabValue = "" then { page := page, threw := false }
            else activateTabValueForGroup groupIdentifier defaultTabValue page

/-- The default-activation loop of `initializeLanguageTabs`: run
`activateDefaultTab` over the groups in document order; an exception
escaping one call aborts the remaining iterations. -/
def runDefaults (page : Page) : DomOutcome :=
  (List.range page.length).foldl
    (fun acc gi => if acc.threw then acc else activateDefaultTabAt acc.page gi)
    { page := page, threw := false }

/-- `initializeLanguageTabs()`: run the default-activation loop, then (only
when no exception escaped it) `createLanguageTabsSyncToggle`.  The `Bool`
reports whether an exception escaped the initializer. -/
def initLanguageTabs (s : ComponentState) : ComponentState × Bool :=
  let d := runDefaults s.page
  if d.threw then ({ s with page := d.page }, true)
  else (createLanguageTabsSyncToggle { s with page := d.page }, false)

/-- The operations of the component, as dispatched on the widget state. -/
inductive TabOp where
  | activateIn (gi : Nat) (v : String)
  | activateGlobal (v : String)
  | activateGroup (gid v : String)
  | initOp
  | click (closest : Option TabGroup) (b : TabButton)
  | keydown (gi bi : Nat) (key : String)
  | syncToggle
deriving Repr, DecidableEq

/-- One operation applied to the widget state; the `Bool` reports whether an
exception escaped the operation. -/
def applyOp (op : TabOp) (s : ComponentState) : ComponentState × Bool :=
  match op with
  | .activateIn gi v =>
    match s.page[gi]? with
    | none => (s, false)
    | some g => ({ s with page := s.page.set gi (activateTabValueInContainer g v).2 }, false)
  | .activateGlobal v => ({ s with page := activateTabValueGlobally v s.page }, false)
  | .activateGroup gid v =>
    let d := activateTabValueForGroup gid v s.page
    ({ s with page := d.page }, d.threw)
  | .initOp => initLanguageTabs s
  | .click closest b =>
    let d := handleTabClick s.syncEnabled closest b s.page
    ({ s with page := d.page }, d.threw)
  | .keydown gi bi key =>
    let r := handleTabKeyboardNavigation s.syncEnabled s.page gi bi key
    ({ s with page := r.page }, r.threw)
  | .syncToggle => (syncToggleClick s, false)

/-! ### Well-formedness and the activation invariant -/

/-- The values present on a group's buttons (absent attributes skipped). -/
def buttonValues (g : TabGroup) : List String :=
  g.buttons.filterMap (fun b => b.value)

/-- The values present on a group's panels (absent attributes skipped). -/
def panelValues (g : TabGroup) : List String :=
  g.panels.filterMap (fun p => p.value)

/-- The data-model precondition: tab values are unique within the group,
among buttons and among panels. -/
def uniqueTabValues (g : TabGroup) : Prop :=
  (buttonValues g).Nodup ∧ (panelValues g).Nodup

/-- The activation invariant for one group: at most one active button, at
most one active panel, and when an active button and an active panel both
exist they carry the same value. -/
def groupInvariant (g : TabGroup) : Prop :=
  g.buttons.countP (fun b => b.isActive) ≤ 1 ∧
  g.panels.countP (fun p => p.isActive) ≤ 1 ∧
  ∀ b ∈ g.buttons, b.isActive = true →
    ∀ p ∈ g.panels, p.isActive = true → b.value = p.value

/-- Every group of the page satisfies the uniqueness precondition. -/
def pageWF (page : Page) : Prop := ∀ g ∈ page, uniqueTabValues g

/-- Every group of the page satisfies the activation invariant. -/
def pageInv (page : Page) : Prop := ∀ g ∈ page, groupInvariant g

/-- Both page-level conditions at once. -/
def pageOK (page : Page) : Prop := pageWF page ∧ pageInv page

instance (g : TabGroup) : Decidable (uniqueTabValues g) := by
  unfold uniqueTabValues; infer_instance

instance (g : TabGroup) : Decidable (groupInvariant g) := by
  unfold groupInvariant; infer_instance

instance (page : Page) : Decidable (pageWF page) := by
  unfold pageWF; exact List.decidableBAll _ page

instance (page : Page) : Decidable (pageInv page) := by
  unfold pageInv; exact List.decidableBAll _ page

/-- In a list whose present `f`-values are pairwise distinct, at most one
element maps to any given `some v`. -/
theorem countP_value_le_one {α β : Type} [BEq β] [LawfulBEq β] (f : α → Option β) :
    ∀ l : List α, (l.filterMap f).Nodup → ∀ v : β,
      l.countP (fun x => f x == some v) ≤ 1 := by
  intro l
  induction l with
  | nil => intro _ v; simp
  | cons x xs ih =>
    intro h v
    rw [List.countP_cons]
    by_cases hx : f x = some v
    · have hfm : List.filterMap f (x :: xs) = v :: xs.filterMap f := by
        simp [List.filterMap_cons, hx]
      rw [hfm, List.nodup_cons] at h
      have hz : xs.countP (fun y => f y == some v) = 0 := by
        rw [List.countP_eq_zero]
        intro a ha hpa
        exact h.1 (List.mem_filterMap.mpr ⟨a, ha, by simpa using hpa⟩)
      simp [hz, hx]
    · have hxb : (f x == some v) = false := by simpa using hx
      have htail : (xs.filterMap f).Nodup := by
        cases hfx : f x with
        | none => simpa [List.filterMap_cons, hfx] using h
        | some w =>
          rw [show List.filterMap f (x :: xs) = w :: xs.filterMap f by
            simp [List.filterMap_cons, hfx]] at h
          exact (List.nodup_cons.mp h).2
      simpa [hxb] using ih htail v

/-- With distinct present values, an element mapping to `some v` makes the
count exactly one. -/
theorem countP_value_eq_one {α β : Type} [BEq β] [LawfulBEq β] (f : α → Option β)
    (l : List α) (h : (l.filterMap f).Nodup) (v : β) (a : α) (ha : a ∈ l)
    (hav : f a = some v) :
    l.countP (fun x => f x == some v) = 1 := by
  refine Nat.le_antisymm (countP_value_le_one f l h v) ?_
  have : 0 < l.countP (fun x => f x == some v) :=
    List.countP_pos_iff.mpr ⟨a, ha, by simpa using hav⟩
  omega

/-! ### Basic facts about `activateTabValueInContainer` -/

theorem activateButton_value (v : String) (b : TabButton) :
    (activateButton v b).value = b.value := rfl

theorem activatePanel_value (v : String) (p : TabPanel) :
    (activatePanel v p).value = p.value := rfl

theorem activateButton_isActive (v : String) (b : TabButton) :
    (activateButton v b).isActive = (b.value == some v) := rfl

theorem activatePanel_isActive (v : String) (p : TabPanel) :
    (activatePanel v p).isActive = (p.value == some v) := rfl

theorem activateButton_idem (v : String) (b : TabButton) :
    activateButton v (activateButton v b) = activateButton v b := rfl

theorem activatePanel_idem (v : String) (p : TabPanel) :
    activatePanel v (activatePanel v p) = activatePanel v p := rfl

theorem activate_true (g : TabGroup) (v : String)
    (h : hasSelectedTabValue g v = true) :
    activateTabValueInContainer g v =
      (true,
        { g with
          buttons := g.buttons.map (activateButton v)
          panels := g.panels.map (activatePanel v) }) := by
  simp [activateTabValueInContainer, h]

theorem activate_false (g : TabGroup) (v : String)
    (h : hasSelectedTabValue g v = false) :
    activateTabValueInContainer g v = (false, g) := by
  simp [activateTabValueInContainer, h]

theorem hasSelectedTabValue_activate (g : TabGroup) (v w : String) :
    hasSelectedTabValue (activateTabValueInContainer g v).2 w
      = hasSelectedTabValue g w := by
  unfold activateTabValueInContainer
  split
  · show (g.buttons.map (activateButton v)).any (fun b => b.value == some w) = _
    rw [List.any_map]
    rfl
  · rfl

theorem buttonValues_activate (g : TabGroup) (v : String) :
    buttonValues (activateTabValueInContainer g v).2 = buttonValues g := by
  unfold activateTabValueInContainer
  split
  · show (g.buttons.map (activateButton v)).filterMap (fun b => b.value) = _
    rw [List.filterMap_map]
    rfl
  · rfl

theorem panelValues_activate (g : TabGroup) (v : String) :
    panelValues (activateTabValueInContainer g v).2 = panelValues g := by
  unfold activateTabValueInContainer
  split
  · show (g.panels.map (activatePanel v)).filterMap (fun p => p.value) = _
    rw [List.filterMap_map]
    rfl
  · rfl

theorem uniqueTabValues_activate (g : TabGroup) (v : String)
    (hwf : uniqueTabValues g) :
    uniqueTabValues (activateTabValueInContainer g v).2 :=
  ⟨by rw [show buttonValues (activateTabValueInContainer g v).2 = buttonValues g from
      buttonValues_activate g v]; exact hwf.1,
   by rw [show panelValues (activateTabValueInContainer g v).2 = panelValues g from
      panelValues_activate g v]; exact hwf.2⟩

theorem groupInvariant_activate (g : TabGroup) (v : String)
    (hwf : uniqueTabValues g) (hinv : groupInvariant g) :
    groupInvariant (activateTabValueInContainer g v).2 := by
  unfold activateTabValueInContainer
  split
  case isTrue h =>
    refine ⟨?_, ?_, ?_⟩
    · show (g.buttons.map (activateButton v)).countP (fun b => b.isActive) ≤ 1
      rw [List.countP_map]
      exact countP_value_le_one (fun b => b.value) g.buttons
        (show (g.buttons.filterMap (fun b => b.value)).Nodup from hwf.1) v
    · show (g.panels.map (activatePanel v)).countP (fun p => p.isActive) ≤ 1
      rw [List.countP_map]
      exact countP_value_le_one (fun p => p.value) g.panels
        (show (g.panels.filterMap (fun p => p.value)).Nodup from hwf.2) v
    · intro b hb hba p hp hpa
      obtain ⟨b0, hb0, rfl⟩ := List.mem_map.mp hb
      obtain ⟨p0, hp0, rfl⟩ := List.mem_map.mp hp
      have hbv : b0.value = some v := by
        have := hba
        rw [activateButton_isActive] at this
        simpa using this
      have hpv : p0.value = some v := by
        have := hpa
        rw [activatePanel_isActive] at this
        simpa using this
      rw [activateButton_value, activatePanel_value, hbv, hpv]
  case isFalse h => exact hinv

/-! ### Page-level preservation lemmas -/

theorem pageOK_map (f : TabGroup → TabGroup) (page : Page)
    (hf : ∀ g, uniqueTabValues g → groupInvariant g →
      uniqueTabValues (f g) ∧ groupInvariant (f g))
    (h : pageOK page) : pageOK (page.map f) := by
  constructor
  · intro g' hg'
    obtain ⟨g, hg, rfl⟩ := List.mem_map.mp hg'
    exact (hf g (h.1 g hg) (h.2 g hg)).1
  · intro g' hg'
    obtain ⟨g, hg, rfl⟩ := List.mem_map.mp hg'
    exact (hf g (h.1 g hg) (h.2 g hg)).2

theorem pageOK_activateGlobally (v : String) (page : Page) (h : pageOK page) :
    pageOK (activateTabValueGlobally v page) :=
  pageOK_map _ page
    (fun g hwf hinv =>
      ⟨uniqueTabValues_activate g v hwf, groupInvariant_activate g v hwf hinv⟩)
    h

theorem pageOK_activateForGroup (gid v : String) (page : Page) (h : pageOK page) :
    pageOK (activateTabValueForGroup gid v page).page := by
  unfold activateTabValueForGroup
  split
  · refine pageOK_map _ page (fun g hwf hinv => ?_) h
    split
    · exact ⟨uniqueTabValues_activate g v hwf, groupInvariant_activate g v hwf hinv⟩
    · exact ⟨hwf, hinv⟩
  · exact h

theorem activateDefaultTabAt_cases (page : Page) (gi : Nat) :
    activateDefaultTabAt page gi = { page := page, threw := false } ∨
    ∃ gid v, activateDefaultTabAt page gi = activateTabValueForGroup gid v page := by
  unfold activateDefaultTabAt
  repeat' split
  all_goals try exact Or.inl rfl
  all_goals dsimp only
  all_goals repeat' split
  all_goals first
    | exact Or.inl rfl
    | exact Or.inr ⟨_, _, rfl⟩

theorem pageOK_activateDefaultTabAt (page : Page) (gi : Nat) (h : pageOK page) :
    pageOK (activateDefaultTabAt page gi).page := by
  rcases activateDefaultTabAt_cases page gi with hc | ⟨gid, v, hc⟩
  · rw [hc]; exact h
  · rw [hc]; exact pageOK_activateForGroup gid v page h

theorem foldl_preserve {σ : Type} (P : σ → Prop) (step : σ → Nat → σ)
    (hstep : ∀ acc gi, P acc → P (step acc gi)) :
    ∀ (l : List Nat) (acc : σ), P acc → P (l.foldl step acc) := by
  intro l
  induction l with
  | nil => intro acc h; exact h
  | cons x xs ih => intro acc h; exact ih _ (hstep acc x h)

theorem pageOK_runDefaults (page : Page) (h : pageOK page) :
    pageOK (runDefaults page).page := by
  unfold runDefaults
  refine foldl_preserve (fun d => pageOK d.page)
    (fun acc gi => if acc.threw then acc else activateDefaultTabAt acc.page gi)
    (fun acc gi hacc => ?_) (List.range page.length)
    { page := page, threw := false } h
  dsimp only
  split
  · exact hacc
  · exact pageOK_activateDefaultTabAt acc.page gi hacc

theorem createLanguageTabsSyncToggle_page (s : ComponentState) :
    (createLanguageTabsSyncToggle s).page = s.page := by
  unfold createLanguageTabsSyncToggle
  repeat' split
  all_goals rfl

theorem handleTabClick_cases (syncEnabled : Bool) (closest : Option TabGroup)
    (b : TabButton) (page : Page) :
    handleTabClick syncEnabled closest b page = { page := page, threw := false } ∨
    (∃ v, handleTabClick syncEnabled closest b page
      = { page := activateTabValueGlobally v page, threw := false }) ∨
    (∃ gid v, handleTabClick syncEnabled closest b page
      = activateTabValueForGroup gid v page) := by
  unfold handleTabClick
  repeat' split
  all_goals first
    | exact Or.inl rfl
    | exact Or.inr (Or.inl ⟨_, rfl⟩)
    | exact Or.inr (Or.inr ⟨_, _, rfl⟩)

theorem pageOK_handleTabClick (syncEnabled : Bool) (closest : Option TabGroup)
    (b : TabButton) (page : Page) (h : pageOK page) :
    pageOK (handleTabClick syncEnabled closest b page).page := by
  rcases handleTabClick_cases syncEnabled closest b page with hc | ⟨v, hc⟩ | ⟨gid, v, hc⟩
  · rw [hc]; exact h
  · rw [hc]; exact pageOK_activateGlobally v page h
  · rw [hc]; exact pageOK_activateForGroup gid v page h

theorem keyNav_page_cases (syncEnabled : Bool) (page : Page) (gi bi : Nat)
    (key : String) :
    (handleTabKeyboardNavigation syncEnabled page gi bi key).page = page ∨
    ∃ g t, (handleTabKeyboardNavigation syncEnabled page gi bi key).page
      = (handleTabClick syncEnabled (some g) t page).page := by
  unfold handleTabKeyboardNavigation
  repeat' split
  all_goals try exact Or.inl rfl
  all_goals dsimp only
  all_goals repeat' split
  all_goals first
    | exact Or.inl rfl
    | exact Or.inr ⟨_, _, rfl⟩

theorem pageOK_syncToggleClick (s : ComponentState) (h : pageOK s.page) :
    pageOK (syncToggleClick s).page := by
  unfold syncToggleClick
  dsimp only
  repeat' split
  all_goals first
    | exact h
    | exact pageOK_activateGlobally _ _ h

/-! ### C3 — activation with an absent value is a failing no-op -/

/-- C3: for every group G and value v not present among G's buttons,
`activateTabValueInContainer` returns `false` and leaves every button and
panel of G (active flag, `aria-selected`, `tabindex`) exactly as before. -/
theorem activate_absent_value_noop (g : TabGroup) (v : String)
    (h : ∀ b ∈ g.buttons, b.value ≠ some v) :
    activateTabValueInContainer g v = (false, g) := by
  have hh : hasSelectedTabValue g v = false := by
    rw [hasSelectedTabValue, List.any_eq_false]
    intro b hb
    simpa using h b hb
  exact activate_false g v hh

/-- Fixture for the C3 witness: a two-button, two-panel group. -/
def c3Group : TabGroup :=
  { groupId := some "example-langs"
    buttons :=
      [{ value := some "rust", isActive := true,
         ariaSelected := some "true", tabindex := some "0" },
       { value := some "python", isActive := false,
         ariaSelected := some "false", tabindex := some "-1" }]
    panels :=
      [{ value := some "rust", isActive := true },
       { value := some "python", isActive := false }] }

/-- Witness for C3 at a concrete group and a value absent from it. -/
theorem activate_absent_value_noop_witness :
    activateTabValueInContainer c3Group "zig" = (false, c3Group) :=
  activate_absent_value_noop c3Group "zig" (by decide)

/-! ### C4 — idempotence of activation -/

/-- C4: activating the same value twice yields the same group state as
activating it once, and the reported success of each call equals the
presence test — in particular both calls return `true` when the value is
present among the group's buttons. -/
theorem activate_idempotent (g : TabGroup) (v : String) :
    activateTabValueInContainer (activateTabValueInContainer g v).2 v
      = activateTabValueInContainer g v ∧
    (activateTabValueInContainer g v).1 = hasSelectedTabValue g v := by
  constructor
  · by_cases h : hasSelectedTabValue g v = true
    · have hg2 : hasSelectedTabValue (activateTabValueInContainer g v).2 v = true := by
        rw [hasSelectedTabValue_activate g v v]; exact h
      rw [activate_true _ v hg2, activate_true g v h]
      simp [List.map_map, Function.comp_def, activateButton_idem, activatePanel_idem]
    · have hf : hasSelectedTabValue g v = false := by simpa using h
      rw [activate_false g v hf]
      exact activate_false g v hf
  · by_cases h : hasSelectedTabValue g v = true
    · rw [activate_true g v h, h]
    · have hf : hasSelectedTabValue g v = false := by simpa using h
      rw [activate_false g v hf, hf]

/-! ### C5 — which groups can family activation touch -/

/-- Fixture for the C5 witness: a page with a `lang` group and an `other`
group. -/
def c5Page : Page :=
  [{ groupId := some "lang"
     buttons := [{ value := some "draft", isActive := true,
                   ariaSelected := some "true", tabindex := some "0" },
                 { value := some "published", isActive := false,
                   ariaSelected := some "false", tabindex := some "-1" }]
     panels := [{ value := some "draft", isActive := true },
                { value := some "published", isActive := false }] },
   { groupId := some "other"
     buttons := [{ value := some "draft", isActive := false,
                   ariaSelected := none, tabindex := none }]
     panels := [{ value := some "draft", isActive := false }] }]

/-- C6: `activateTabValueGlobally` replaces every group of the page by its
`activateTabValueInContainer` result; a group not containing the value
among its buttons is left exactly as it was. -/
theorem activateGlobally_each (v : String) (page : Page) (i : Nat)
    (g : TabGroup) (hg : page[i]? = some g) :
    (activateTabValueGlobally v page)[i]?
        = some (activateTabValueInContainer g v).2 ∧
    (hasSelectedTabValue g v = false →
      (activateTabValueGlobally v page)[i]? = some g) := by
  have h1 : (activateTabValueGlobally v page)[i]?
      = some (activateTabValueInContainer g v).2 := by
    unfold activateTabValueGlobally
    rw [List.getElem?_map, hg]
    rfl
  refine ⟨h1, fun hf => ?_⟩
  rw [h1, activate_false g v hf]

/-- Witness for C6 at `c5Page`: the first group is rewritten by its own
activation result and a group lacking the value stays put. -/
theorem activateGlobally_each_witness :
    (activateTabValueGlobally "published" c5Page)[0]?
      = some (activateTabValueInContainer
          { groupId := some "lang"
            buttons := [{ value := some "draft", isActive := true,
                          ariaSelected := some "true", tabindex := some "0" },
                        { value := some "published", isActive := false,
                          ariaSelected := some "false", tabindex := some "-1" }]
            panels := [{ value := some "draft", isActive := true },
                       { value := some "published", isActive := false }] }
          "published").2 :=
  (activateGlobally_each "published" c5Page 0
    { groupId := some "lang"
      buttons := [{ value := some "draft", isActive := true,
                    ariaSelected := some "true", tabindex := some "0" },
                  { value := some "published", isActive := false,
                    ariaSelected := some "false", tabindex := some "-1" }]
      panels := [{ value := some "draft", isActive := true },
                 { value := some "published", isActive := false }] }
    (by decide)).1

/-! ### C1 — activation with a present value -/

theorem activateButton_pos (v : String) (b : TabButton)
    (h : (b.value == some v) = true) :
    activateButton v b =
      { b with isActive := true, ariaSelected := some "true", tabindex := some "0" } := by
  simp [activateButton, h]

theorem activateButton_neg (v : String) (b : TabButton)
    (h : (b.value == some v) = false) :
    activateButton v b =
      { b with isActive := false, ariaSelected := some "false", tabindex := some "-1" } := by
  simp [activateButton, h]

/-- C1 (amended): on a group whose present button values are pairwise
distinct, activating a value present among the buttons returns `true`;
afterwards exactly one button is active, it carries the value with
`aria-selected "true"` and `tabindex "0"`, every inactive button has
`aria-selected "false"` and `tabindex "-1"`, and a panel is active
precisely when it carries the value (so the number of active panels equals
the number of panels carrying the value — one, when exactly one panel
does). -/
theorem activate_present_value (g : TabGroup) (v : String)
    (hnd : (buttonValues g).Nodup) (hmem : hasSelectedTabValue g v = true) :
    (activateTabValueInContainer g v).1 = true ∧
    (activateTabValueInContainer g v).2.buttons.countP (fun b => b.isActive) = 1 ∧
    (∀ b ∈ (activateTabValueInContainer g v).2.buttons, b.isActive = true →
      b.value = some v ∧ b.ariaSelected = some "true" ∧ b.tabindex = some "0") ∧
    (∀ b ∈ (activateTabValueInContainer g v).2.buttons, b.isActive = false →
      b.ariaSelected = some "false" ∧ b.tabindex = some "-1") ∧
    (∀ p ∈ (activateTabValueInContainer g v).2.panels,
      p.isActive = true ↔ p.value = some v) ∧
    (activateTabValueInContainer g v).2.panels.countP (fun p => p.isActive)
      = g.panels.countP (fun p => p.value == some v) := by
  rw [activate_true g v hmem]
  refine ⟨rfl, ?_, ?_, ?_, ?_, ?_⟩
  · show (g.buttons.map (activateButton v)).countP (fun b => b.isActive) = 1
    rw [List.countP_map]
    obtain ⟨b, hb, hbv⟩ := List.any_eq_true.mp hmem
    exact countP_value_eq_one (fun b => b.value) g.buttons
      (show (g.buttons.filterMap (fun b => b.value)).Nodup from hnd) v b hb
      (by simpa using hbv)
  · intro b hb hba
    obtain ⟨b0, hb0, rfl⟩ := List.mem_map.mp hb
    have hc : (b0.value == some v) = true := by
      have := hba
      rw [activateButton_isActive] at this
      exact this
    rw [activateButton_pos v b0 hc]
    exact ⟨by simpa using hc, rfl, rfl⟩
  · intro b hb hba
    obtain ⟨b0, hb0, rfl⟩ := List.mem_map.mp hb
    cases hc : (b0.value == some v) with
    | true =>
      rw [activateButton_pos v b0 hc] at hba
      cases hba
    | false =>
      rw [activateButton_neg v b0 hc]
      exact ⟨rfl, rfl⟩
  · intro p hp
    obtain ⟨p0, hp0, rfl⟩ := List.mem_map.mp hp
    rw [activatePanel_isActive, activatePanel_value]
    constructor
    · intro h; simpa using h
    · intro h; simpa using h
  · show (g.panels.map (activatePanel v)).countP (fun p => p.isActive) = _
    rw [List.countP_map]
    rfl

/-- C1 counterexample fixture: two buttons share the value `a`. -/
def c1DupGroup : TabGroup :=
  { groupId := none
    buttons :=
      [{ value := some "a", isActive := false, ariaSelected := none, tabindex := none },
       { value := some "a", isActive := false, ariaSelected := none, tabindex := none }]
    panels := [{ value := some "a", isActive := false }] }

/-- C1 counterexample fixture: a button with value `a` but no panel at all. -/
def c1NoPanelGroup : TabGroup :=
  { groupId := none
    buttons :=
      [{ value := some "a", isActive := false, ariaSelected := none, tabindex := none }]
    panels := [] }

/-- C1 as stated is false: with two buttons sharing the value the call
returns `true` but leaves two active buttons, and with no panel carrying
the value it returns `true` but leaves zero active panels — in neither
case "exactly one" of each. -/
theorem activate_present_value_counterexample :
    (activateTabValueInContainer c1DupGroup "a").1 = true ∧
    (activateTabValueInContainer c1DupGroup "a").2.buttons.countP
      (fun b => b.isActive) = 2 ∧
    ¬((activateTabValueInContainer c1DupGroup "a").2.buttons.countP
      (fun b => b.isActive) = 1) ∧
    (activateTabValueInContainer c1NoPanelGroup "a").1 = true ∧
    (activateTabValueInContainer c1NoPanelGroup "a").2.panels.countP
      (fun p => p.isActive) = 0 ∧
    ¬((activateTabValueInContainer c1NoPanelGroup "a").2.panels.countP
      (fun p => p.isActive) = 1) := by
  decide

/-- Fixture for the C1 witness: distinct values, matching panels. -/
def c1Group : TabGroup :=
  { groupId := some "langs"
    buttons :=
      [{ value := some "rust", isActive := true,
         ariaSelected := some "true", tabindex := some "0" },
       { value := some "python", isActive := false,
         ariaSelected := some "false", tabindex := some "-1" }]
    panels :=
      [{ value := some "rust", isActive := true },
       { value := some "python", isActive := false }] }

/-- Witness for C1 (amended): activating `python` on `c1Group` leaves
exactly one active button. -/
theorem activate_present_value_witness :
    (activateTabValueInContainer c1Group "python").2.buttons.countP
      (fun b => b.isActive) = 1 :=
  (activate_present_value c1Group "python" (by decide) (by decide)).2.1

/-! ### C2 — every operation preserves the activation invariant -/

/-- C2: under the data-model precondition that tab values are unique within
each group, every operation of the component (direct activation, global
activation, family activation, initialization, click handling, keyboard
handling, sync toggling) preserves the invariant: at most one active
button and at most one active panel per group, with equal values whenever
both exist. -/
theorem tab_ops_preserve_invariant (op : TabOp) (s : ComponentState)
    (hwf : pageWF s.page) (hinv : pageInv s.page) :
    pageInv (applyOp op s).1.page := by
  have h : pageOK s.page := ⟨hwf, hinv⟩
  cases op with
  | activateIn gi v =>
    dsimp [applyOp]
    cases hg : s.page[gi]? with
    | none => exact hinv
    | some g =>
      dsimp only
      intro g' hg'
      rcases List.mem_or_eq_of_mem_set hg' with hm | rfl
      · exact hinv g' hm
      · have hgm : g ∈ s.page := List.getElem?_mem hg
        exact groupInvariant_activate g v (hwf g hgm) (hinv g hgm)
  | activateGlobal v =>
    exact (pageOK_activateGlobally v s.page h).2
  | activateGroup gid v =>
    exact (pageOK_activateForGroup gid v s.page h).2
  | initOp =>
    show pageInv (initLanguageTabs s).1.page
    unfold initLanguageTabs
    dsimp only
    split
    · exact (pageOK_runDefaults s.page h).2
    · rw [createLanguageTabsSyncToggle_page]
      exact (pageOK_runDefaults s.page h).2
  | click closest b =>
    exact (pageOK_handleTabClick s.syncEnabled closest b s.page h).2
  | keydown gi bi key =>
    show pageInv (handleTabKeyboardNavigation s.syncEnabled s.page gi bi key).page
    rcases keyNav_page_cases s.syncEnabled s.page gi bi key with hc | ⟨g, t, hc⟩
    · rw [hc]; exact hinv
    · rw [hc]; exact (pageOK_handleTabClick s.syncEnabled (some g) t s.page h).2
  | syncToggle =>
    exact (pageOK_syncToggleClick s h).2

/-- Fixture for the C2 witness. -/
def c2State : ComponentState :=
  { page :=
      [{ groupId := some "langs"
         buttons :=
           [{ value := some "rust", isActive := true,
              ariaSelected := some "true", tabindex := some "0" },
            { value := some "python", isActive := false,
              ariaSelected := some "false", tabindex := some "-1" }]
         panels :=
           [{ value := some "rust", isActive := true },
            { value := some "python", isActive := false }] }]
    syncEnabled := false
    toggleButton := none
    hasRightButtons := true
    hasLeftButtons := false }

/-- Witness for C2: a concrete global activation preserves the invariant. -/
theorem tab_ops_preserve_invariant_witness :
    pageInv (applyOp (TabOp.activateGlobal "python") c2State).1.page :=
  tab_ops_preserve_invariant (TabOp.activateGlobal "python") c2State
    (by decide) (by decide)

/-! ### C7 — harmonization on enabling Global Sync Mode -/

theorem syncToggleClick_syncEnabled (s : ComponentState) :
    (syncToggleClick s).syncEnabled = !s.syncEnabled := by
  unfold syncToggleClick
  dsimp only
  repeat' split
  all_goals rfl

theorem syncToggleClick_toggleButton (s : ComponentState) :
    (syncToggleClick s).toggleButton
      = updateLanguageTabsSyncToggleButtonState (!s.syncEnabled) s.toggleButton := by
  unfold syncToggleClick
  dsimp only
  repeat' split
  all_goals rfl

/-- C7 counterexample fixture: the only active button carries the empty
string as its value. -/
def c7EmptyValState : ComponentState :=
  { page :=
      [{ groupId := some "g1"
         buttons :=
           [{ value := some "", isActive := true, ariaSelected := none, tabindex := none }]
         panels := [] }]
    syncEnabled := false
    toggleButton := none
    hasRightButtons := false
    hasLeftButtons := false }

/-- C7 counterexample fixture: an identifier-less group holding the clicked
button, next to a group that contains the clicked value. -/
def c7NoIdGroup : TabGroup :=
  { groupId := none
    buttons :=
      [{ value := some "y", isActive := false, ariaSelected := none, tabindex := none }]
    panels := [] }

/-- Second group of the click page: contains the value `y`. -/
def c7OtherGroup : TabGroup :=
  { groupId := some "h"
    buttons :=
      [{ value := some "y", isActive := false, ariaSelected := none, tabindex := none }]
    panels := [{ value := some "y", isActive := false }] }

/-- The page for the C7 click counterexample. -/
def c7ClickPage : Page := [c7NoIdGroup, c7OtherGroup]

/-- C7 as stated is false: (i) a page has an active button (value `""`),
yet enabling sync changes nothing although a global activation of that
value would change the page; (ii) with sync on, clicking the `y` button of
an identifier-less group propagates nothing although a global activation
of `y` would change the page. -/
theorem sync_toggle_counterexample :
    (firstActiveButton c7EmptyValState.page).isSome = true ∧
    (firstActiveButton c7EmptyValState.page).bind (fun b => b.value) = some "" ∧
    (syncToggleClick c7EmptyValState).page = c7EmptyValState.page ∧
    activateTabValueGlobally "" c7EmptyValState.page ≠ c7EmptyValState.page ∧
    (handleTabClick true (some c7NoIdGroup)
        { value := some "y", isActive := false, ariaSelected := none, tabindex := none }
        c7ClickPage).page = c7ClickPage ∧
    activateTabValueGlobally "y" c7ClickPage ≠ c7ClickPage := by
  decide

/-- C7 (amended): toggling Global Sync Mode on flips the flag; if the first
active button in page order carries a nonempty value, the component
immediately runs the global activation with that value; when no button is
active, or the first active button's value is missing or empty, the page
is unchanged.  While the mode is on, a click on a button carrying a
nonempty value inside a group carrying a nonempty identifier activates
that value globally; clicks with a missing or empty identifier or value do
nothing. -/
theorem sync_toggle_behavior (s : ComponentState) (hoff : s.syncEnabled = false) :
    (syncToggleClick s).syncEnabled = true ∧
    (∀ b v, firstActiveButton s.page = some b → b.value = some v → v ≠ "" →
      (syncToggleClick s).page = activateTabValueGlobally v s.page) ∧
    (getFirstActiveTabValue s.page = none → (syncToggleClick s).page = s.page) ∧
    (getFirstActiveTabValue s.page = some "" → (syncToggleClick s).page = s.page) ∧
    (∀ (page : Page) (cg : TabGroup) (b : TabButton) (gid v : String),
      cg.groupId = some gid → gid ≠ "" → b.value = some v → v ≠ "" →
      handleTabClick true (some cg) b page
        = { page := activateTabValueGlobally v page, threw := false }) ∧
    (∀ (page : Page) (c : Option TabGroup) (b : TabButton),
      (c.bind (fun g => g.groupId) = none ∨ c.bind (fun g => g.groupId) = some ""
        ∨ b.value = none ∨ b.value = some "") →
      handleTabClick true c b page = { page := page, threw := false }) := by
  refine ⟨?_, ?_, ?_, ?_, ?_, ?_⟩
  · rw [syncToggleClick_syncEnabled, hoff]
    rfl
  · intro b v hb hv hne
    have hfirst : getFirstActiveTabValue s.page = some v := by
      unfold getFirstActiveTabValue
      rw [hb]
      exact hv
    unfold syncToggleClick
    rw [hoff, hfirst]
    simp [hne]
  · intro hfirst
    unfold syncToggleClick
    rw [hoff, hfirst]
    simp
  · intro hfirst
    unfold syncToggleClick
    rw [hoff, hfirst]
    simp
  · intro page cg b gid v h1 h2 h3 h4
    unfold handleTabClick
    rw [show (some cg).bind (fun g => g.groupId) = some gid from by
      simpa using h1, h3]
    simp [h2, h4]
  · intro page c b hcase
    cases hgid : c.bind (fun g => g.groupId) with
    | none =>
      cases hval : b.value with
      | none => simp [handleTabClick, hgid, hval]
      | some v => simp [handleTabClick, hgid, hval]
    | some gid =>
      cases hval : b.value with
      | none => simp [handleTabClick, hgid, hval]
      | some v =>
        rcases hcase with hc | hc | hc | hc
        · rw [hgid] at hc; cases hc
        · rw [hgid] at hc
          injection hc with hc
          subst hc
          simp [handleTabClick, hgid, hval]
        · rw [hval] at hc; cases hc
        · rw [hval] at hc
          injection hc with hc
          subst hc
          simp [handleTabClick, hgid, hval]

/-- Fixture for the C7 witness: one group with `rust` active, one group
showing `python`, both containing both values. -/
def c7WitnessState : ComponentState :=
  { page :=
      [{ groupId := some "a"
         buttons :=
           [{ value := some "rust", isActive := true,
              ariaSelected := some "true", tabindex := some "0" },
            { value := some "python", isActive := false,
              ariaSelected := some "false", tabindex := some "-1" }]
         panels :=
           [{ value := some "rust", isActive := true },
            { value := some "python", isActive := false }] },
       { groupId := some "b"
         buttons :=
           [{ value := some "rust", isActive := false,
              ariaSelected := some "false", tabindex := some "-1" },
            { value := some "python", isActive := true,
              ariaSelected := some "true", tabindex := some "0" }]
         panels :=
           [{ value := some "rust", isActive := false },
            { value := some "python", isActive := true }] }]
    syncEnabled := false
    toggleButton := none
    hasRightButtons := true
    hasLeftButtons := false }

/-- Witness for C7 (amended): enabling sync on `c7WitnessState` harmonizes
every group to `rust`, the value of the first active button. -/
theorem sync_toggle_behavior_witness :
    (syncToggleClick c7WitnessState).page
      = activateTabValueGlobally "rust" c7WitnessState.page :=
  (sync_toggle_behavior c7WitnessState (by decide)).2.1
    { value := some "rust", isActive := true,
      ariaSelected := some "true", tabindex := some "0" }
    "rust" (by decide) (by decide) (by decide)

/-! ### C8 — keyboard navigation with wrap-around -/

/-- C8: on the button at index `bi` of a group with `count` buttons,
`ArrowRight` targets `(bi + 1) % count` and `ArrowLeft` targets
`(bi - 1 + count) % count` (written `(bi + count - 1) % count` over `Nat`);
the target receives focus, the default action is suppressed, and the page
outcome is that of a click on the target button; any other key is ignored
with no state change. -/
theorem keyboard_navigation (syncEnabled : Bool) (page : Page) (gi bi : Nat)
    (g : TabGroup) (key : String) (hg : page[gi]? = some g)
    (hbi : bi < g.buttons.length) :
    (key = "ArrowRight" →
      (∀ t, g.buttons[(bi + 1) % g.buttons.length]? = some t →
        handleTabKeyboardNavigation syncEnabled page gi bi key =
          { focusTarget := some ((bi + 1) % g.buttons.length)
            preventedDefault := true
            page := (handleTabClick syncEnabled (some g) t page).page
            threw := (handleTabClick syncEnabled (some g) t page).threw })) ∧
    (key = "ArrowLeft" →
      (∀ t, g.buttons[(bi + g.buttons.length - 1) % g.buttons.length]? = some t →
        handleTabKeyboardNavigation syncEnabled page gi bi key =
          { focusTarget := some ((bi + g.buttons.length - 1) % g.buttons.length)
            preventedDefault := true
            page := (handleTabClick syncEnabled (some g) t page).page
            threw := (handleTabClick syncEnabled (some g) t page).threw })) ∧
    (key ≠ "ArrowRight" → key ≠ "ArrowLeft" →
      handleTabKeyboardNavigation syncEnabled page gi bi key =
        { focusTarget := none, preventedDefault := false, page := page, threw := false }) := by
  refine ⟨?_, ?_, ?_⟩
  · intro hk t ht
    subst hk
    unfold handleTabKeyboardNavigation
    rw [hg]
    dsimp only
    rw [List.getElem?_eq_getElem hbi]
    dsimp only
    rw [if_pos rfl]
    dsimp only
    rw [ht]
  · intro hk t ht
    subst hk
    unfold handleTabKeyboardNavigation
    rw [hg]
    dsimp only
    rw [List.getElem?_eq_getElem hbi]
    dsimp only
    rw [if_neg (by decide), if_pos rfl]
    dsimp only
    rw [ht]
  · intro hk1 hk2
    unfold handleTabKeyboardNavigation
    rw [hg]
    dsimp only
    rw [List.getElem?_eq_getElem hbi]
    dsimp only
    rw [if_neg hk1, if_neg hk2]

/-- Fixture for the C8 witness: one group with three buttons. -/
def c8Page : Page :=
  [{ groupId := some "k"
     buttons :=
       [{ value := some "a", isActive := true,
          ariaSelected := some "true", tabindex := some "0" },
        { value := some "b", isActive := false,
          ariaSelected := some "false", tabindex := some "-1" },
        { value := some "c", isActive := false,
          ariaSelected := some "false", tabindex := some "-1" }]
     panels :=
       [{ value := some "a", isActive := true },
        { value := some "b", isActive := false },
        { value := some "c", isActive := false }] }]

/-- Witness for C8: `ArrowRight` from the last button of the 3-button group
wraps to index 0, focuses it and clicks it (re-activating the already
active value, so the page is unchanged). -/
theorem keyboard_navigation_witness :
    handleTabKeyboardNavigation false c8Page 0 2 "ArrowRight" =
      { focusTarget := some 0, preventedDefault := true, page := c8Page, threw := false } := by
  have h := (keyboard_navigation false c8Page 0 2
    { groupId := some "k"
      buttons :=
        [{ value := some "a", isActive := true,
           ariaSelected := some "true", tabindex := some "0" },
         { value := some "b", isActive := false,
           ariaSelected := some "false", tabindex := some "-1" },
         { value := some "c", isActive := false,
           ariaSelected := some "false", tabindex := some "-1" }]
      panels :=
        [{ value := some "a", isActive := true },
         { value := some "b", isActive := false },
         { value := some "c", isActive := false }] }
    "ArrowRight" rfl (by decide)).1 rfl
    { value := some "a", isActive := true,
      ariaSelected := some "true", tabindex := some "0" } rfl
  rw [h]
  decide

/-! ### C9 — existence of the header sync toggle after initialization -/

theorem activateTabValueForGroup_length (gid v : String) (page : Page) :
    (activateTabValueForGroup gid v page).page.length = page.length := by
  unfold activateTabValueForGroup
  split
  · exact List.length_map page _
  · rfl

theorem activateDefaultTabAt_length (page : Page) (gi : Nat) :
    (activateDefaultTabAt page gi).page.length = page.length := by
  rcases activateDefaultTabAt_cases page gi with h | ⟨gid, v, h⟩
  · rw [h]
  · rw [h]; exact activateTabValueForGroup_length gid v page

theorem runDefaults_length (page : Page) :
    (runDefaults page).page.length = page.length := by
  unfold runDefaults
  refine foldl_preserve (fun d => d.page.length = page.length)
    (fun acc gi => if acc.threw then acc else activateDefaultTabAt acc.page gi)
    (fun acc gi hacc => ?_) (List.range page.length)
    { page := page, threw := false } rfl
  dsimp only
  split
  · exact hacc
  · rw [activateDefaultTabAt_length acc.page gi]; exact hacc

/-- Branch analysis of `createLanguageTabsSyncToggle`. -/
theorem createToggle_cases (s : ComponentState) :
    (2 ≤ s.page.length ∧ (s.hasRightButtons || s.hasLeftButtons) = true ∧
      createLanguageTabsSyncToggle s
        = { s with toggleButton := some (mkSyncToggleButton s.syncEnabled) }) ∨
    ((s.page.length < 2 ∨ (s.hasRightButtons || s.hasLeftButtons) = false) ∧
      createLanguageTabsSyncToggle s = s) := by
  unfold createLanguageTabsSyncToggle
  by_cases h1 : s.page.length < 2
  · right
    exact ⟨Or.inl h1, by rw [if_pos h1]⟩
  · by_cases h2 : (s.hasRightButtons || s.hasLeftButtons) = true
    · left
      refine ⟨by omega, h2, ?_⟩
      rw [if_neg h1, if_pos h2]
    · right
      refine ⟨Or.inr (by simpa using h2), ?_⟩
      rw [if_neg h1, if_neg h2]

/-- C9 (amended): after initialization (starting, as on page load, with no
toggle and sync off), the header sync toggle exists iff the page holds at
least two tab groups, a header button container exists, and no exception
escaped the default-activation loop; when the toggle exists it reads
exactly "Sync Tabs: Off", and after switching the mode on it reads exactly
"Sync Tabs: On". -/
theorem sync_toggle_creation (s : ComponentState) (h0 : s.toggleButton = none)
    (hoff : s.syncEnabled = false) :
    ((initLanguageTabs s).1.toggleButton ≠ none ↔
      (2 ≤ s.page.length ∧
        (s.hasRightButtons = true ∨ s.hasLeftButtons = true) ∧
        (initLanguageTabs s).2 = false)) ∧
    (∀ t, (initLanguageTabs s).1.toggleButton = some t →
      t.textContent = "Sync Tabs: Off" ∧ t.ariaPressed = some "false" ∧
        t.isActive = false) ∧
    (∀ t, (syncToggleClick (initLanguageTabs s).1).toggleButton = some t →
      t.textContent = "Sync Tabs: On" ∧ t.ariaPressed = some "true") := by
  unfold initLanguageTabs
  dsimp only
  split
  case isTrue hth =>
    refine ⟨?_, ?_, ?_⟩
    · simp only [h0]
      constructor
      · intro hc; exact absurd rfl hc
      · rintro ⟨-, -, hfalse⟩; cases hfalse
    · intro t ht
      rw [h0] at ht
      cases ht
    · intro t ht
      rw [syncToggleClick_toggleButton] at ht
      dsimp only at ht
      rw [h0] at ht
      cases ht
  case isFalse hth =>
    have hlen : (runDefaults s.page).page.length = s.page.length :=
      runDefaults_length s.page
    rcases createToggle_cases
        { s with page := (runDefaults s.page).page } with
      ⟨hl, hh, heq⟩ | ⟨hor, heq⟩
    · dsimp only at hl hh heq
      rw [hlen] at hl
      refine ⟨?_, ?_, ?_⟩
      · rw [heq]
        dsimp only
        constructor
        · intro _
          refine ⟨hl, ?_, rfl⟩
          rcases Bool.or_eq_true_iff.mp hh with h | h
          · exact Or.inl h
          · exact Or.inr h
        · intro _
          intro hc
          cases hc
      · intro t ht
        rw [heq] at ht
        dsimp only at ht
        rw [hoff] at ht
        injection ht with ht
        subst ht
        exact ⟨rfl, rfl, rfl⟩
      · intro t ht
        rw [syncToggleClick_toggleButton] at ht
        rw [heq] at ht
        dsimp only at ht
        rw [hoff] at ht
        dsimp [updateLanguageTabsSyncToggleButtonState] at ht
        injection ht with ht
        subst ht
        exact ⟨rfl, rfl⟩
    · dsimp only at hor heq
      rw [hlen] at hor
      refine ⟨?_, ?_, ?_⟩
      · rw [heq]
        dsimp only
        rw [h0]
        constructor
        · intro hc; exact absurd rfl hc
        · rintro ⟨hl2, hh2, -⟩
          rcases hor with hlt | hff
          · omega
          · rcases hh2 with h | h
            · rw [h] at hff; cases hff
            · rw [h, Bool.or_true] at hff; cases hff
      · intro t ht
        rw [heq] at ht
        dsimp only at ht
        rw [h0] at ht
        cases ht
      · intro t ht
        rw [syncToggleClick_toggleButton] at ht
        rw [heq] at ht
        dsimp only at ht
        rw [h0] at ht
        cases ht

/-- C9 counterexample fixture: two identifier-less groups, no header
containers. -/
def c9NoHeaderState : ComponentState :=
  { page :=
      [{ groupId := none
         buttons := [{ value := some "a", isActive := false,
                       ariaSelected := none, tabindex := none }]
         panels := [] },
       { groupId := none, buttons := [], panels := [] }]
    syncEnabled := false
    toggleButton := none
    hasRightButtons := false
    hasLeftButtons := false }

/-- C9 counterexample fixture: two groups, a header container, but the
first group's identifier contains a double quote, so initialization throws
before the toggle is created. -/
def c9QuoteState : ComponentState :=
  { page :=
      [{ groupId := some "a\"b"
         buttons := [{ value := some "x", isActive := false,
                       ariaSelected := none, tabindex := none }]
         panels := [] },
       { groupId := none, buttons := [], panels := [] }]
    syncEnabled := false
    toggleButton := none
    hasRightButtons := true
    hasLeftButtons := false }

/-- C9 as stated is false: a page with two tab groups can end up with no
header toggle — when no header button container exists, and also when a
quoted group identifier makes the default-activation loop throw before
`createLanguageTabsSyncToggle` runs. -/
theorem sync_toggle_creation_counterexample :
    2 ≤ c9NoHeaderState.page.length ∧
    (initLanguageTabs c9NoHeaderState).1.toggleButton = none ∧
    2 ≤ c9QuoteState.page.length ∧
    c9QuoteState.hasRightButtons = true ∧
    (initLanguageTabs c9QuoteState).1.toggleButton = none ∧
    (initLanguageTabs c9QuoteState).2 = true := by
  decide

/-- Fixture for the C9 witness: two groups and a right header container. -/
def c9GoodState : ComponentState :=
  { page :=
      [{ groupId := none
         buttons := [{ value := some "a", isActive := false,
                       ariaSelected := none, tabindex := none }]
         panels := [] },
       { groupId := none, buttons := [], panels := [] }]
    syncEnabled := false
    toggleButton := none
    hasRightButtons := true
    hasLeftButtons := false }

/-- Witness for C9 (amended) at `c9GoodState`. -/
theorem sync_toggle_creation_witness :
    (initLanguageTabs c9GoodState).1.toggleButton ≠ none ↔
      (2 ≤ c9GoodState.page.length ∧
        (c9GoodState.hasRightButtons = true ∨ c9GoodState.hasLeftButtons = true) ∧
        (initLanguageTabs c9GoodState).2 = false) :=
  (sync_toggle_creation c9GoodState (by decide) (by decide)).1

/-! ### C10 — a quoted group identifier makes a click throw -/

/-- C10 fixture: a group whose identifier contains a double quote. -/
def c10Group : TabGroup :=
  { groupId := some "a\"b"
    buttons := [{ value := some "x", isActive := false,
                  ariaSelected := none, tabindex := none }]
    panels := [] }

/-- C10: clicking the (well-formed, valued) button of a group whose
identifier contains a double quote reaches
`activateTabValueForGroup`, whose unescaped selector interpolation is
invalid, so `document.querySelectorAll` raises a `SyntaxError`: the claim
that no markup can make the component throw is violated by the code. -/
theorem click_with_quoted_group_id_throws :
    (handleTabClick false (some c10Group)
        { value := some "x", isActive := false,
          ariaSelected := none, tabindex := none }
        [c10Group]).threw = true ∧
    groupSelectorMatch "a\"b" = none ∧
    (handleTabClick false (some c10Group)
        { value := some "x", isActive := false,
          ariaSelected := none, tabindex := none }
        [c10Group]).page = [c10Group] := by
  decide

end LanguageTabs
